import Mathlib

set_option autoImplicit false

namespace KimiCoder

/-!
Shallow embedding of `src/extensions/index.ts` (pi-kimi-coder).

Conventions used throughout:
- JSON string fields are `Option String` (`none` = absent/undefined); numeric
  fields are `Option ℚ` (`none` = absent).  Arithmetic comparisons against an
  absent value (which is `NaN` in JavaScript) are false, mirrored by the `js*`
  helpers below.
- `Date.now() / 1000` is passed in as an explicit parameter `now : ℚ`
  (seconds); occurrences of `Date.now()` in milliseconds are `1000 * now`.
  Time is frozen for the duration of one call.
- File system and HTTP effects are made explicit: the state of a credential
  file is an input, the content written back is part of the output, and the
  HTTP response a server would give is an input of the operation.
-/

/-- Truthiness of a JavaScript string-or-undefined value:
`undefined` and the empty string are falsy. -/
def truthyStr : Option String → Bool
  | none => false
  | some s => s != ""

/-- JavaScript `String(x || "")` for a string-or-undefined `x`. -/
def jsStrOrEmpty : Option String → String
  | none => ""
  | some s => s

/-- JavaScript `String(x)` for a string-or-undefined `x`
(`String(undefined)` is the string `"undefined"`). -/
def jsStringOf : Option String → String
  | none => "undefined"
  | some s => s

/-- JavaScript `String(x || d)` for a string-or-undefined `x` and default `d`. -/
def jsStrOr (o : Option String) (d : String) : String :=
  match o with
  | none => d
  | some s => if s = "" then d else s

/-- JavaScript `Number(x || d)` for a number-or-undefined `x`:
the number `0` is falsy, so it also selects the default. -/
def jsNumOr (o : Option ℚ) (d : ℚ) : ℚ :=
  match o with
  | none => d
  | some x => if x = 0 then d else x

/-- JavaScript `x > b` for a number-or-undefined `x` (`NaN > b` is false). -/
def jsGtOpt (o : Option ℚ) (b : ℚ) : Bool :=
  match o with
  | none => false
  | some x => decide (b < x)

/-- JavaScript `x < b` for a number-or-undefined `x` (`NaN < b` is false). -/
def jsLtOpt (o : Option ℚ) (b : ℚ) : Bool :=
  match o with
  | none => false
  | some x => decide (x < b)

/-- JavaScript `x * 1000` for a number-or-undefined `x` (absent stays absent). -/
def jsMul1000 : Option ℚ → Option ℚ :=
  Option.map (fun x => x * 1000)

/-- JavaScript `x - now < bound` for a number-or-undefined `x`
(`NaN < bound` is false). -/
def jsRemainingLt (o : Option ℚ) (now bound : ℚ) : Bool :=
  match o with
  | none => false
  | some e => decide (e - now < bound)

/-- The provider key used in pi's `auth.json` (source constant `PROVIDER_NAME`). -/
def PROVIDER_NAME : String := "kimi-coder"

/-- Shape of the companion-store file `~/.kimi/credentials/kimi-code.json`
(source `interface KimiToken`).  `loadKimiCliToken` returns the parsed object
unchanged (`data as KimiToken`), so fields that may be missing on disk are
optional here. -/
structure KimiToken where
  access_token : Option String
  refresh_token : Option String
  expires_at : Option ℚ
  scope : Option String
  token_type : Option String
deriving DecidableEq

/-- Observable state of the companion credential file: missing, present but
not valid JSON (`JSON.parse` throws), or parsed content. -/
inductive KtFileState where
  | missing
  | unparseable
  | parsed (data : KimiToken)
deriving DecidableEq

/-- Source `loadKimiCliToken` (src/extensions/index.ts lines 60-72): missing
file yields `null`; a thrown read/parse error is caught and yields `null`;
parsed data is returned as-is exactly when `data.access_token &&
data.refresh_token` is truthy.  Fallibility is `Option`; the definition is
total, so no exception reaches the caller. -/
def loadKimiCliToken : KtFileState → Option KimiToken
  | KtFileState.missing => none
  | KtFileState.unparseable => none
  | KtFileState.parsed data =>
      if truthyStr data.access_token && truthyStr data.refresh_token then
        some data
      else
        none

/-- One entry of pi's `auth.json` (broker store).  Entries of other providers
are arbitrary JSON; the fields read by the source are explicit and `payload`
stands for any further content, preserved verbatim. -/
structure PiEntry where
  type : Option String
  access : Option String
  refresh : Option String
  expires : Option ℚ
  payload : Nat := 0
deriving DecidableEq

/-- Observable state of pi's `auth.json` file. -/
inductive PiFileState where
  | missing
  | unparseable
  | parsed (entries : List (String × PiEntry))
deriving DecidableEq

/-- JavaScript object property read `obj[key]` on the association-list model
of a JSON object. -/
def jsLookup : List (String × PiEntry) → String → Option PiEntry
  | [], _ => none
  | (a, w) :: rest, k => if a = k then some w else jsLookup rest k

/-- JavaScript object property write `obj[key] = v`: replaces the value in
place when the key is present, otherwise appends the key. -/
def jsSet : List (String × PiEntry) → String → PiEntry → List (String × PiEntry)
  | [], k, v => [(k, v)]
  | (a, w) :: rest, k, v =>
      if a = k then (a, v) :: rest else (a, w) :: jsSet rest k v

/-- Content lookup through the file state: a missing or unreadable file has
no entries. -/
def contentLookup : PiFileState → String → Option PiEntry
  | PiFileState.parsed m, k => jsLookup m k
  | _, _ => none

/-- The broker-store entry seeded from a companion token
(src/extensions/index.ts lines 119-124): `expires` is `expires_at * 1000`. -/
def seedEntry (token : KimiToken) : PiEntry :=
  { type := some "oauth"
    access := token.access_token
    refresh := token.refresh_token
    expires := jsMul1000 token.expires_at
    payload := 0 }

/-- The validity check on an existing broker-store entry
(src/extensions/index.ts lines 108-115): `existing.type === "oauth" &&
existing.access && existing.expires > Date.now()`. -/
def piEntryFresh (ex : PiEntry) (now : ℚ) : Bool :=
  (ex.type == some "oauth") && truthyStr ex.access &&
    jsGtOpt ex.expires (1000 * now)

/-- The read-modify-write part of `seedPiAuthFromKimiCli` (lines 100-133):
given the parsed `authData`, skip the write when the existing provider entry
is an oauth entry with truthy `access` and `expires > Date.now()`, otherwise
upsert the seeded entry and write the whole object back. -/
def seedUpsert (token : KimiToken) (authData : List (String × PiEntry))
    (orig : PiFileState) (now : ℚ) : Bool × PiFileState :=
  match jsLookup authData PROVIDER_NAME with
  | some existing =>
      if piEntryFresh existing now then
        (true, orig)
      else
        (true, PiFileState.parsed (jsSet authData PROVIDER_NAME (seedEntry token)))
  | none =>
      (true, PiFileState.parsed (jsSet authData PROVIDER_NAME (seedEntry token)))

/-- Source `seedPiAuthFromKimiCli` (lines 92-137).  Inputs: the companion
credential file, pi's `auth.json` file, and the current time in seconds.
Output: the returned boolean and the resulting state of `auth.json`
(unchanged on every non-writing path).  An unreadable `auth.json` makes
`JSON.parse` throw, which the `catch` turns into `false` with no write. -/
def seedPiAuthFromKimiCli (ktFile : KtFileState) (piFile : PiFileState)
    (now : ℚ) : Bool × PiFileState :=
  match loadKimiCliToken ktFile with
  | none => (false, piFile)
  | some token =>
      if !truthyStr token.access_token then (false, piFile)
      else if jsLtOpt token.expires_at (now + 60) then (false, piFile)
      else
        match piFile with
        | PiFileState.unparseable => (false, piFile)
        | PiFileState.missing => seedUpsert token [] piFile now
        | PiFileState.parsed m => seedUpsert token m piFile now

/-- Replacing one key of a JSON object leaves every other key's value
unchanged. -/
theorem jsLookup_jsSet_ne (m : List (String × PiEntry)) (key : String)
    (v : PiEntry) (k : String) (hk : k ≠ key) :
    jsLookup (jsSet m key v) k = jsLookup m k := by
  induction m with
  | nil =>
      simp only [jsSet, jsLookup]
      rw [if_neg (fun h => hk h.symm)]
  | cons p rest ih =>
      obtain ⟨a, w⟩ := p
      by_cases ha : a = key
      · subst ha
        simp only [jsSet, if_pos rfl, jsLookup]
        rw [if_neg (fun h => hk h.symm), if_neg (fun h => hk h.symm)]
      · simp only [jsSet, if_neg ha, jsLookup]
        by_cases hak : a = k
        · rw [if_pos hak, if_pos hak]
        · rw [if_neg hak, if_neg hak, ih]

/-- C7: seeding pi's `auth.json` is a read-modify-write that changes at most
the key `"kimi-coder"`: for every prior file state and every other key, the
value observed at that key after `seedPiAuthFromKimiCli` equals the value
before. -/
theorem seedPiAuth_preserves_other_providers (ktFile : KtFileState)
    (piFile : PiFileState) (now : ℚ) (k : String) (hk : k ≠ PROVIDER_NAME) :
    contentLookup (seedPiAuthFromKimiCli ktFile piFile now).2 k =
      contentLookup piFile k := by
  unfold seedPiAuthFromKimiCli
  cases hload : loadKimiCliToken ktFile with
  | none => rfl
  | some token =>
      by_cases hacc : truthyStr token.access_token
      · simp only [hacc, Bool.not_true, Bool.false_eq_true, if_false]
        by_cases hexp : jsLtOpt token.expires_at (now + 60) = true
        · simp [hexp]
        · simp only [hexp, if_false]
          cases piFile with
          | missing =>
              have h := jsLookup_jsSet_ne [] PROVIDER_NAME (seedEntry token) k hk
              simp [seedUpsert, jsLookup, contentLookup, h]
              exact fun hpk => hk hpk.symm
          | unparseable => rfl
          | parsed m =>
              simp only [seedUpsert]
              cases hex : jsLookup m PROVIDER_NAME with
              | none =>
                  simp [contentLookup, jsLookup_jsSet_ne m PROVIDER_NAME (seedEntry token) k hk]
              | some existing =>
                  by_cases hfresh : piEntryFresh existing now = true
                  · simp [hfresh]
                  · simp only [hfresh, if_false]
                    simp [contentLookup,
                      jsLookup_jsSet_ne m PROVIDER_NAME (seedEntry token) k hk]
      · simp [hacc]

/-- C7 witness: concrete instance — seeding next to an unrelated provider
entry leaves that entry unchanged. -/
theorem seedPiAuth_preserves_other_providers_witness :
    contentLookup
        (seedPiAuthFromKimiCli
          (KtFileState.parsed ⟨some "a", some "r", some 1000, none, none⟩)
          (PiFileState.parsed
            [("other-provider", ⟨some "api", some "x", some "y", some 5, 7⟩)])
          0).2 "other-provider" =
      some ⟨some "api", some "x", some "y", some 5, 7⟩ := by
  rw [seedPiAuth_preserves_other_providers
    (KtFileState.parsed ⟨some "a", some "r", some 1000, none, none⟩)
    (PiFileState.parsed
      [("other-provider", ⟨some "api", some "x", some "y", some 5, 7⟩)])
    0 "other-provider" (by decide)]
  rfl

/-- C8: `loadKimiCliToken` fails soft.  A missing file yields absent; an
unparseable file (thrown parse error, caught) yields absent; parsed content
without the required truthy `access_token` and `refresh_token` yields absent;
and whenever a token is returned, both required fields are truthy.  The
definition is total into `Option`, so no exception reaches the caller. -/
theorem loadKimiCliToken_fail_soft :
    loadKimiCliToken KtFileState.missing = none ∧
    loadKimiCliToken KtFileState.unparseable = none ∧
    (∀ d : KimiToken,
      (truthyStr d.access_token && truthyStr d.refresh_token) = false →
      loadKimiCliToken (KtFileState.parsed d) = none) ∧
    (∀ d t : KimiToken, loadKimiCliToken (KtFileState.parsed d) = some t →
      truthyStr t.access_token = true ∧ truthyStr t.refresh_token = true) := by
  refine ⟨rfl, rfl, ?_, ?_⟩
  · intro d hd
    simp [loadKimiCliToken, hd]
  · intro d t ht
    simp only [loadKimiCliToken] at ht
    by_cases h : (truthyStr d.access_token && truthyStr d.refresh_token) = true
    · rw [if_pos h] at ht
      cases ht
      rw [Bool.and_eq_true] at h
      exact h
    · rw [if_neg h] at ht
      cases ht

/-- C8 witness: the implications at concrete inputs — a record with an empty
refresh token is rejected, and a returned token has truthy required fields. -/
theorem loadKimiCliToken_fail_soft_witness :
    loadKimiCliToken (KtFileState.parsed ⟨some "a", some "", none, none, none⟩) = none ∧
    (truthyStr (some "a") = true ∧ truthyStr (some "r") = true) := by
  refine ⟨?_, ?_⟩
  · exact loadKimiCliToken_fail_soft.2.2.1 ⟨some "a", some "", none, none, none⟩ (by decide)
  · exact loadKimiCliToken_fail_soft.2.2.2 ⟨some "a", some "r", none, none, none⟩
      ⟨some "a", some "r", none, none, none⟩ (by decide)

/-- C10: the presence criterion of `loadKimiCliToken` is exactly truthiness of
`access_token` and `refresh_token`: the parsed record is returned unchanged
iff both are present and non-empty; an empty-string field yields absent, while
a record missing `expires_at`, `scope` and `token_type` is still returned. -/
theorem loadKimiCliToken_presence_criterion :
    (∀ d : KimiToken,
      loadKimiCliToken (KtFileState.parsed d) = some d ↔
        (truthyStr d.access_token = true ∧ truthyStr d.refresh_token = true)) ∧
    loadKimiCliToken (KtFileState.parsed ⟨some "", some "r", some 9, some "s", some "B"⟩) = none ∧
    loadKimiCliToken (KtFileState.parsed ⟨some "a", some "", some 9, some "s", some "B"⟩) = none ∧
    loadKimiCliToken (KtFileState.parsed ⟨some "a", some "r", none, none, none⟩) =
      some ⟨some "a", some "r", none, none, none⟩ := by
  refine ⟨?_, by decide, by decide, by decide⟩
  intro d
  constructor
  · intro h
    simp only [loadKimiCliToken] at h
    by_cases hc : (truthyStr d.access_token && truthyStr d.refresh_token) = true
    · rw [Bool.and_eq_true] at hc
      exact hc
    · rw [if_neg hc] at h
      cases h
  · intro h
    simp [loadKimiCliToken, h.1, h.2]

/-- C10 witness: the criterion instantiated at a concrete record with both
required fields present and the optional fields absent. -/
theorem loadKimiCliToken_presence_criterion_witness :
    loadKimiCliToken (KtFileState.parsed ⟨some "x", some "y", none, none, none⟩) =
      some ⟨some "x", some "y", none, none, none⟩ :=
  (loadKimiCliToken_presence_criterion.1 ⟨some "x", some "y", none, none, none⟩).mpr
    (by decide)

/-- Writing a key of a JSON object makes that key's value the written one. -/
theorem jsLookup_jsSet_self (m : List (String × PiEntry)) (key : String)
    (v : PiEntry) : jsLookup (jsSet m key v) key = some v := by
  induction m with
  | nil => simp [jsSet, jsLookup]
  | cons p rest ih =>
      obtain ⟨a, w⟩ := p
      by_cases ha : a = key
      · subst ha
        simp [jsSet, jsLookup]
      · simp [jsSet, ha, jsLookup, ih]

/-- A token returned by `loadKimiCliToken` has truthy required fields. -/
theorem loadKimiCliToken_truthy (f : KtFileState) (t : KimiToken)
    (h : loadKimiCliToken f = some t) :
    truthyStr t.access_token = true ∧ truthyStr t.refresh_token = true := by
  cases f with
  | missing => cases h
  | unparseable => cases h
  | parsed d =>
      simp only [loadKimiCliToken] at h
      by_cases hc : (truthyStr d.access_token && truthyStr d.refresh_token) = true
      · rw [if_pos hc] at h
        cases h
        rw [Bool.and_eq_true] at hc
        exact hc
      · rw [if_neg hc] at h
        cases h

/-- C6 (amended): for a companion token valid for at least 60 more seconds,
when pi's `auth.json` is readable and does not already hold a fresh oauth
entry for the provider, seeding writes an entry whose `expires` is exactly
`expires_at * 1000`; a token with less than 60 seconds remaining is never
seeded (the call returns `false` and leaves the file untouched). -/
theorem seedPiAuth_expiry_conversion (ktFile : KtFileState)
    (piFile : PiFileState) (now e : ℚ) (token : KimiToken)
    (hload : loadKimiCliToken ktFile = some token)
    (he : token.expires_at = some e) :
    (now + 60 ≤ e →
      piFile ≠ PiFileState.unparseable →
      (∀ ex, contentLookup piFile PROVIDER_NAME = some ex →
        piEntryFresh ex now = false) →
      (seedPiAuthFromKimiCli ktFile piFile now).1 = true ∧
      contentLookup (seedPiAuthFromKimiCli ktFile piFile now).2 PROVIDER_NAME =
        some (seedEntry token) ∧
      (seedEntry token).expires = some (e * 1000)) ∧
    (e < now + 60 → seedPiAuthFromKimiCli ktFile piFile now = (false, piFile)) := by
  have hacc := (loadKimiCliToken_truthy ktFile token hload).1
  constructor
  · intro hge hup hnof
    have hlt : jsLtOpt token.expires_at (now + 60) = false := by
      rw [he]
      simp only [jsLtOpt, decide_eq_false_iff_not]
      exact not_lt.mpr hge
    unfold seedPiAuthFromKimiCli
    rw [hload]
    simp only [hacc, Bool.not_true, Bool.false_eq_true, if_false, hlt]
    cases piFile with
    | unparseable => exact absurd rfl hup
    | missing =>
        simp only [seedUpsert, jsLookup]
        refine ⟨by trivial, ?_, ?_⟩
        · simp [contentLookup, jsLookup_jsSet_self]
        · simp [seedEntry, jsMul1000, he]
    | parsed m =>
        simp only [seedUpsert]
        cases hex : jsLookup m PROVIDER_NAME with
        | none =>
            refine ⟨by trivial, ?_, ?_⟩
            · simp [contentLookup, jsLookup_jsSet_self]
            · simp [seedEntry, jsMul1000, he]
        | some ex =>
            have hf := hnof ex (by simpa [contentLookup] using hex)
            simp only [hf, Bool.false_eq_true, if_false]
            refine ⟨by trivial, ?_, ?_⟩
            · simp [contentLookup, jsLookup_jsSet_self]
            · simp [seedEntry, jsMul1000, he]
  · intro hlt'
    have hlt : jsLtOpt token.expires_at (now + 60) = true := by
      rw [he]
      simp only [jsLtOpt, decide_eq_true_eq]
      exact hlt'
    unfold seedPiAuthFromKimiCli
    rw [hload]
    simp [hacc, hlt]

/-- C6 counterexample: the claim as stated is false.  The companion token
(access `"newacc"`, `expires_at = 100`) is valid for at least 60 seconds at
`now = 0`, yet because `auth.json` already holds a fresh oauth entry for the
provider, seeding leaves that entry untouched: the resulting provider entry
has `expires = 1`, not `expires_at * 1000 = 100000`. -/
theorem seedPiAuth_expiry_conversion_counterexample :
    seedPiAuthFromKimiCli
        (KtFileState.parsed ⟨some "newacc", some "newref", some 100, none, none⟩)
        (PiFileState.parsed
          [("kimi-coder", ⟨some "oauth", some "oldacc", some "oldref", some 1, 0⟩)])
        0 =
      (true, PiFileState.parsed
        [("kimi-coder", ⟨some "oauth", some "oldacc", some "oldref", some 1, 0⟩)]) ∧
    (0 : ℚ) + 60 ≤ 100 ∧
    some ((1 : ℚ)) ≠ some ((100 : ℚ) * 1000) := by
  refine ⟨?_, by norm_num, by norm_num⟩
  have e1 : jsLtOpt (some (100 : ℚ)) 60 = false := by decide
  have e2 : jsGtOpt (some (1 : ℚ)) 0 = true := by decide
  simp [seedPiAuthFromKimiCli, loadKimiCliToken, truthyStr, seedUpsert,
    jsLookup, piEntryFresh, PROVIDER_NAME, e1, e2]

/-- C6 witness: the amended theorem applied at a concrete input — a valid
token seeded into a missing `auth.json` produces the provider entry with
`expires = 100 * 1000`. -/
theorem seedPiAuth_expiry_conversion_witness :
    (seedPiAuthFromKimiCli
        (KtFileState.parsed ⟨some "a", some "r", some 100, none, none⟩)
        PiFileState.missing 0).1 = true ∧
    contentLookup
        (seedPiAuthFromKimiCli
          (KtFileState.parsed ⟨some "a", some "r", some 100, none, none⟩)
          PiFileState.missing 0).2 PROVIDER_NAME =
      some (seedEntry ⟨some "a", some "r", some 100, none, none⟩) ∧
    (seedEntry ⟨some "a", some "r", some 100, none, none⟩).expires =
      some ((100 : ℚ) * 1000) :=
  (seedPiAuth_expiry_conversion
      (KtFileState.parsed ⟨some "a", some "r", some 100, none, none⟩)
      PiFileState.missing 0 100 ⟨some "a", some "r", some 100, none, none⟩
      rfl rfl).1 (by norm_num) (by decide)
    (fun ex h => by simp [contentLookup] at h)

/-- JSON body of a token-endpoint response.  The fields the source reads are
explicit; `expires_at` is a hypothetical server-supplied absolute expiry,
included to express that the source never reads it. -/
structure TokenJson where
  access_token : Option String
  refresh_token : Option String
  expires_in : Option ℚ
  scope : Option String
  token_type : Option String
  error : Option String
  error_description : Option String
  expires_at : Option ℚ
deriving DecidableEq

/-- An HTTP response from the token endpoint: `ok` is `response.ok`
(status in 200..299), `status` is `response.status`, `data` the JSON body. -/
structure HttpResponse where
  ok : Bool
  status : Nat
  data : TokenJson
deriving DecidableEq

/-- The token object built from a successful token-endpoint response, shared
verbatim by `pollForToken` (lines 202-208) and `refreshAccessToken`
(lines 241-247): `expires_at = Date.now() / 1000 + Number(data.expires_in ||
3600)`, `scope` defaults to `"kimi-code"`, `token_type` to `"Bearer"`. -/
def tokenFromResponse (data : TokenJson) (now : ℚ) : KimiToken :=
  { access_token := some (jsStringOf data.access_token)
    refresh_token := some (jsStringOf data.refresh_token)
    expires_at := some (now + jsNumOr data.expires_in 3600)
    scope := some (jsStrOr data.scope "kimi-code")
    token_type := some (jsStrOr data.token_type "Bearer") }

/-- Source `refreshAccessToken` (lines 221-248), as a function of the
response the token endpoint returns: a non-ok status throws
`data.error_description || "Token refresh failed (status)"`, otherwise the
new token is built from the relative `expires_in`. -/
def refreshAccessToken (resp : HttpResponse) (now : ℚ) : Except String KimiToken :=
  if !resp.ok then
    Except.error (jsStrOr resp.data.error_description
      ("Token refresh failed (" ++ toString resp.status ++ ")"))
  else
    Except.ok (tokenFromResponse resp.data now)

/-- JSON body of a device-authorization response. -/
structure DeviceAuthJson where
  user_code : Option String
  device_code : Option String
  verification_uri : Option String
  verification_uri_complete : Option String
  expires_in : Option ℚ
  interval : Option ℚ
deriving DecidableEq

/-- An HTTP response from the device-authorization endpoint. -/
structure DeviceAuthResponse where
  ok : Bool
  status : Nat
  data : DeviceAuthJson
deriving DecidableEq

/-- Source `interface DeviceAuthorization` (lines 143-150). -/
structure DeviceAuthorization where
  user_code : String
  device_code : String
  verification_uri : String
  verification_uri_complete : String
  expires_in : Option ℚ
  interval : ℚ
deriving DecidableEq

/-- Source `requestDeviceAuthorization` (lines 152-178): a non-ok status
throws; `expires_in` keeps the numeric value only when truthy (`data.expires_in
? Number(data.expires_in) : null`, so the falsy `0` becomes `null`), and
`interval = Math.max(Number(data.interval || 5), 1)`. -/
def requestDeviceAuthorization (resp : DeviceAuthResponse) :
    Except String DeviceAuthorization :=
  if !resp.ok then
    Except.error ("Device authorization failed (" ++ toString resp.status ++ ")")
  else
    Except.ok
      { user_code := jsStringOf resp.data.user_code
        device_code := jsStringOf resp.data.device_code
        verification_uri := jsStrOr resp.data.verification_uri ""
        verification_uri_complete := jsStringOf resp.data.verification_uri_complete
        expires_in :=
          match resp.data.expires_in with
          | none => none
          | some e => if e = 0 then none else some e
        interval := max (jsNumOr resp.data.interval 5) 1 }

/-- Events observable during a poll: sleeping a number of seconds, or posting
one token-grant request. -/
inductive PollEvent where
  | sleep (secs : ℚ)
  | request
deriving DecidableEq

/-- Terminal poll failures: `"Device code expired. Please try again."` and
`"Login timed out. Please try again."`. -/
inductive PollErr where
  | deviceCodeExpired
  | loginTimeout
deriving DecidableEq

/-- Success test on a token-endpoint response (line 200):
`response.status === 200 && data.access_token`. -/
def isSuccess (r : HttpResponse) : Bool :=
  (r.status == 200) && truthyStr r.data.access_token

/-- Terminal-error test on a token-endpoint response (lines 211-212):
`String(data.error || "") === "expired_token"`. -/
def isExpiredErr (r : HttpResponse) : Bool :=
  jsStrOrEmpty r.data.error == "expired_token"

/-- Attempt bound of the poll loop (lines 181-183): `auth.expires_in ?
Math.ceil(auth.expires_in / auth.interval) : 120` (the number `0` is falsy,
selecting 120; a non-positive ceiling runs the loop zero times). -/
def maxAttemptsOf (auth : DeviceAuthorization) : Nat :=
  match auth.expires_in with
  | some e => if e = 0 then 120 else (Int.ceil (e / auth.interval)).toNat
  | none => 120

/-- The body of `pollForToken`'s loop (lines 185-216): with `fuel` attempts
remaining and `i` the index of the next request, each iteration sleeps
`interval` seconds, posts one request, returns on a success, throws on
`expired_token`, and otherwise (`authorization_pending`, `slow_down`, or any
other non-success body) keeps polling.  The trace records every sleep and
request in order; running out of fuel throws the login-timeout error. -/
def pollLoop (responses : Nat → HttpResponse) (interval now : ℚ) :
    Nat → Nat → Except PollErr KimiToken × List PollEvent
  | 0, _ => (Except.error PollErr.loginTimeout, [])
  | fuel + 1, i =>
      let r := responses i
      if isSuccess r then
        (Except.ok (tokenFromResponse r.data now),
          [PollEvent.sleep interval, PollEvent.request])
      else if isExpiredErr r then
        (Except.error PollErr.deviceCodeExpired,
          [PollEvent.sleep interval, PollEvent.request])
      else
        let rest := pollLoop responses interval now fuel (i + 1)
        (rest.1, PollEvent.sleep interval :: PollEvent.request :: rest.2)

/-- Source `pollForToken` (lines 180-219): run the loop from attempt 0 with
the derived attempt bound.  `responses i` is the response the token endpoint
gives to the i-th request. -/
def pollForToken (auth : DeviceAuthorization) (responses : Nat → HttpResponse)
    (now : ℚ) : Except PollErr KimiToken × List PollEvent :=
  pollLoop responses auth.interval now (maxAttemptsOf auth) 0

/-- The trace of `n` poll attempts: an `interval`-second sleep before each of
the `n` requests. -/
def pollTrace (interval : ℚ) : Nat → List PollEvent
  | 0 => []
  | n + 1 => PollEvent.sleep interval :: PollEvent.request :: pollTrace interval n

/-- Whether a poll event is a request. -/
def PollEvent.isRequest : PollEvent → Bool
  | PollEvent.request => true
  | _ => false

/-- Number of requests recorded in a trace. -/
def requestCount (tr : List PollEvent) : Nat :=
  tr.countP (fun e => e.isRequest)

/-- A sleep event is not a request. -/
theorem isRequest_sleep (s : ℚ) : (PollEvent.sleep s).isRequest = false := rfl

/-- A request event is a request. -/
theorem isRequest_request : PollEvent.request.isRequest = true := rfl

/-- A trace of `n` attempts contains exactly `n` requests. -/
theorem requestCount_pollTrace (interval : ℚ) (n : Nat) :
    requestCount (pollTrace interval n) = n := by
  induction n with
  | zero => rfl
  | succ n ih =>
      simp only [requestCount] at ih
      simp [pollTrace, requestCount, List.countP_cons, isRequest_sleep,
        isRequest_request, ih]

/-- If the first `N` responses are neither successes nor `expired_token` and
response `N` is a success, the loop returns the token of response `N` after
exactly `N + 1` sleep-request rounds. -/
theorem pollLoop_success (responses : Nat → HttpResponse) (interval now : ℚ) :
    ∀ N fuel i : Nat, N < fuel →
    (∀ j, j < N → isSuccess (responses (i + j)) = false ∧
      isExpiredErr (responses (i + j)) = false) →
    isSuccess (responses (i + N)) = true →
    pollLoop responses interval now fuel i =
      (Except.ok (tokenFromResponse (responses (i + N)).data now),
        pollTrace interval (N + 1)) := by
  intro N
  induction N with
  | zero =>
      intro fuel i hfuel hpend hsucc
      obtain ⟨f, rfl⟩ : ∃ f, fuel = f + 1 := ⟨fuel - 1, by omega⟩
      rw [Nat.add_zero] at hsucc
      simp [pollLoop, hsucc, pollTrace]
  | succ N ih =>
      intro fuel i hfuel hpend hsucc
      obtain ⟨f, rfl⟩ : ∃ f, fuel = f + 1 := ⟨fuel - 1, by omega⟩
      have h0 := hpend 0 (Nat.succ_pos N)
      rw [Nat.add_zero] at h0
      have ihr := ih f (i + 1) (by omega)
        (fun j hj => by
          have h := hpend (j + 1) (by omega)
          rwa [show i + (j + 1) = i + 1 + j by omega] at h)
        (by rwa [show i + (N + 1) = i + 1 + N by omega] at hsucc)
      rw [show i + (N + 1) = i + 1 + N by omega]
      simp [pollLoop, h0.1, h0.2, ihr, pollTrace]

/-- If the first `m` responses are neither successes nor `expired_token` and
response `m` is a non-success carrying `expired_token`, the loop throws the
device-code-expired error after exactly `m + 1` rounds. -/
theorem pollLoop_expired (responses : Nat → HttpResponse) (interval now : ℚ) :
    ∀ m fuel i : Nat, m < fuel →
    (∀ j, j < m → isSuccess (responses (i + j)) = false ∧
      isExpiredErr (responses (i + j)) = false) →
    isSuccess (responses (i + m)) = false →
    isExpiredErr (responses (i + m)) = true →
    pollLoop responses interval now fuel i =
      (Except.error PollErr.deviceCodeExpired, pollTrace interval (m + 1)) := by
  intro m
  induction m with
  | zero =>
      intro fuel i hfuel hpend hns hexp
      obtain ⟨f, rfl⟩ : ∃ f, fuel = f + 1 := ⟨fuel - 1, by omega⟩
      rw [Nat.add_zero] at hns hexp
      simp [pollLoop, hns, hexp, pollTrace]
  | succ m ih =>
      intro fuel i hfuel hpend hns hexp
      obtain ⟨f, rfl⟩ : ∃ f, fuel = f + 1 := ⟨fuel - 1, by omega⟩
      have h0 := hpend 0 (Nat.succ_pos m)
      rw [Nat.add_zero] at h0
      have ihr := ih f (i + 1) (by omega)
        (fun j hj => by
          have h := hpend (j + 1) (by omega)
          rwa [show i + (j + 1) = i + 1 + j by omega] at h)
        (by rwa [show i + (m + 1) = i + 1 + m by omega] at hns)
        (by rwa [show i + (m + 1) = i + 1 + m by omega] at hexp)
      simp [pollLoop, h0.1, h0.2, ihr, pollTrace]

/-- The loop never makes more requests than it has fuel. -/
theorem pollLoop_requestCount_le (responses : Nat → HttpResponse)
    (interval now : ℚ) :
    ∀ fuel i : Nat,
      requestCount (pollLoop responses interval now fuel i).2 ≤ fuel := by
  intro fuel
  induction fuel with
  | zero =>
      intro i
      simp [pollLoop, requestCount]
  | succ f ih =>
      intro i
      simp only [pollLoop]
      by_cases h1 : isSuccess (responses i) = true
      · simp [h1, requestCount, List.countP_cons, isRequest_sleep, isRequest_request]
      · by_cases h2 : isExpiredErr (responses i) = true
        · simp [h1, h2, requestCount, List.countP_cons, isRequest_sleep,
            isRequest_request]
        · simp only [h1, h2, Bool.false_eq_true, if_false]
          simp [requestCount, List.countP_cons, isRequest_sleep,
            isRequest_request]
          have h := ih (i + 1)
          simp only [requestCount] at h
          omega

/-- If every response within the fuel is neither a success nor
`expired_token`, the loop exhausts its attempts and times out. -/
theorem pollLoop_timeout (responses : Nat → HttpResponse) (interval now : ℚ) :
    ∀ fuel i : Nat,
    (∀ j, j < fuel → isSuccess (responses (i + j)) = false ∧
      isExpiredErr (responses (i + j)) = false) →
    (pollLoop responses interval now fuel i).1 = Except.error PollErr.loginTimeout := by
  intro fuel
  induction fuel with
  | zero => intro i _; rfl
  | succ f ih =>
      intro i h
      have h0 := h 0 (by omega)
      rw [Nat.add_zero] at h0
      simp only [pollLoop, h0.1, h0.2, Bool.false_eq_true, if_false]
      exact ih (i + 1) (fun j hj => by
        have hh := h (j + 1) (by omega)
        rwa [show i + (j + 1) = i + 1 + j by omega] at hh)

/-- A token-endpoint response carrying `authorization_pending`. -/
def pendingResponse : HttpResponse :=
  ⟨false, 400, ⟨none, none, none, none, none, some "authorization_pending", none, none⟩⟩

/-- A token-endpoint response carrying `expired_token`. -/
def expiredResponse : HttpResponse :=
  ⟨false, 400, ⟨none, none, none, none, none, some "expired_token", none, none⟩⟩

/-- A successful token-endpoint response. -/
def successResponse : HttpResponse :=
  ⟨true, 200, ⟨some "tok", some "ref", some 3600, some "kimi-code", some "Bearer",
    none, none, none⟩⟩

/-- A device authorization without `expires_in` (attempt bound 120) and a
5-second interval. -/
def sampleAuth : DeviceAuthorization := ⟨"u", "d", "v", "vc", none, 5⟩

/-- C2: if the token endpoint answers `authorization_pending` or `slow_down`
on the first N requests and a success on request N+1 (N below the attempt
bound), `pollForToken` makes exactly N+1 requests, each preceded by an
`interval`-second sleep, returns the token built from the final response, and
treats no pending response as a hard failure. -/
theorem pollForToken_pending_then_success (auth : DeviceAuthorization)
    (responses : Nat → HttpResponse) (now : ℚ) (N : Nat)
    (hN : N < maxAttemptsOf auth)
    (hpend : ∀ j, j < N → isSuccess (responses j) = false ∧
      (jsStrOrEmpty (responses j).data.error = "authorization_pending" ∨
        jsStrOrEmpty (responses j).data.error = "slow_down"))
    (hsucc : isSuccess (responses N) = true) :
    pollForToken auth responses now =
      (Except.ok (tokenFromResponse (responses N).data now),
        pollTrace auth.interval (N + 1)) ∧
    requestCount (pollForToken auth responses now).2 = N + 1 := by
  have hmain := pollLoop_success responses auth.interval now N (maxAttemptsOf auth) 0 hN
    (fun j hj => by
      rw [Nat.zero_add]
      refine ⟨(hpend j hj).1, ?_⟩
      rcases (hpend j hj).2 with h | h <;> simp [isExpiredErr, h])
    (by rwa [Nat.zero_add])
  rw [Nat.zero_add] at hmain
  constructor
  · exact hmain
  · show requestCount (pollLoop responses auth.interval now (maxAttemptsOf auth) 0).2 = N + 1
    rw [hmain]
    exact requestCount_pollTrace auth.interval (N + 1)

/-- C2 witness: one `authorization_pending` answer followed by a success
yields exactly two sleep-request rounds and the token of the second
response. -/
theorem pollForToken_pending_then_success_witness :
    pollForToken sampleAuth
        (fun n => if n = 0 then pendingResponse else successResponse) 0 =
      (Except.ok (tokenFromResponse successResponse.data 0), pollTrace 5 2) ∧
    requestCount (pollForToken sampleAuth
        (fun n => if n = 0 then pendingResponse else successResponse) 0).2 = 2 :=
  pollForToken_pending_then_success sampleAuth
    (fun n => if n = 0 then pendingResponse else successResponse) 0 1
    (by decide)
    (fun j hj => by
      obtain rfl : j = 0 := by omega
      exact ⟨by decide, Or.inl (by decide)⟩)
    (by decide)

/-- C4: an `expired_token` answer at response index m (the (m+1)-th request),
the earlier responses being neither successes nor `expired_token`, makes
`pollForToken` throw the device-code-expired error after exactly m+1
requests; with m = 0 it fails on the very first response with no further
requests. -/
theorem pollForToken_expired_fail_fast (auth : DeviceAuthorization)
    (responses : Nat → HttpResponse) (now : ℚ) (m : Nat)
    (hm : m < maxAttemptsOf auth)
    (hpend : ∀ j, j < m → isSuccess (responses j) = false ∧
      isExpiredErr (responses j) = false)
    (hns : isSuccess (responses m) = false)
    (hexp : isExpiredErr (responses m) = true) :
    pollForToken auth responses now =
      (Except.error PollErr.deviceCodeExpired, pollTrace auth.interval (m + 1)) ∧
    requestCount (pollForToken auth responses now).2 = m + 1 := by
  have hmain := pollLoop_expired responses auth.interval now m (maxAttemptsOf auth) 0 hm
    (fun j hj => by
      rw [Nat.zero_add]
      exact hpend j hj)
    (by rwa [Nat.zero_add]) (by rwa [Nat.zero_add])
  constructor
  · exact hmain
  · show requestCount (pollLoop responses auth.interval now (maxAttemptsOf auth) 0).2 = m + 1
    rw [hmain]
    exact requestCount_pollTrace auth.interval (m + 1)

/-- C4 witness: `expired_token` on the very first response fails immediately,
after exactly one request. -/
theorem pollForToken_expired_fail_fast_witness :
    pollForToken sampleAuth (fun _ => expiredResponse) 0 =
      (Except.error PollErr.deviceCodeExpired, pollTrace 5 1) ∧
    requestCount (pollForToken sampleAuth (fun _ => expiredResponse) 0).2 = 1 :=
  pollForToken_expired_fail_fast sampleAuth (fun _ => expiredResponse) 0 0
    (by decide) (fun j hj => absurd hj (by omega)) (by decide) (by decide)

/-- C5: `pollForToken` makes at most `ceil(expires_in / interval)` requests
when the device authorization carries a (truthy) `expires_in`, at most 120
when it is absent, and exhausting every attempt without a success or terminal
error yields the login-timeout failure; moreover `requestDeviceAuthorization`
never produces `expires_in = some 0`, so the truthiness side condition covers
every device authorization the program constructs.  Termination itself is
intrinsic: the loop is bounded by the attempt count. -/
theorem pollForToken_terminates_bounded (auth : DeviceAuthorization)
    (responses : Nat → HttpResponse) (now : ℚ) :
    (∀ e : ℚ, auth.expires_in = some e → e ≠ 0 →
      requestCount (pollForToken auth responses now).2 ≤
        (Int.ceil (e / auth.interval)).toNat) ∧
    (auth.expires_in = none →
      requestCount (pollForToken auth responses now).2 ≤ 120) ∧
    ((∀ j, j < maxAttemptsOf auth → isSuccess (responses j) = false ∧
        isExpiredErr (responses j) = false) →
      (pollForToken auth responses now).1 = Except.error PollErr.loginTimeout) ∧
    (∀ (dresp : DeviceAuthResponse) (da : DeviceAuthorization),
      requestDeviceAuthorization dresp = Except.ok da → da.expires_in ≠ some 0) := by
  have hbound := pollLoop_requestCount_le responses auth.interval now (maxAttemptsOf auth) 0
  refine ⟨?_, ?_, ?_, ?_⟩
  · intro e he hne
    have hmax : maxAttemptsOf auth = (Int.ceil (e / auth.interval)).toNat := by
      simp [maxAttemptsOf, he, hne]
    show requestCount (pollLoop responses auth.interval now (maxAttemptsOf auth) 0).2 ≤ _
    rw [← hmax]
    exact hbound
  · intro he
    have hmax : maxAttemptsOf auth = 120 := by simp [maxAttemptsOf, he]
    show requestCount (pollLoop responses auth.interval now (maxAttemptsOf auth) 0).2 ≤ 120
    rw [← hmax]
    exact hbound
  · intro h
    exact pollLoop_timeout responses auth.interval now (maxAttemptsOf auth) 0
      (fun j hj => by
        rw [Nat.zero_add]
        exact h j hj)
  · intro dresp da h
    unfold requestDeviceAuthorization at h
    by_cases hok : dresp.ok
    · rw [hok] at h
      simp only [Bool.not_true, Bool.false_eq_true, if_false] at h
      cases h
      cases hcase : dresp.data.expires_in with
      | none => simp [hcase]
      | some e =>
          by_cases he : e = 0
          · simp [hcase, he]
          · simp [hcase, he]
    · have hf : dresp.ok = false := by
        cases hb : dresp.ok
        · rfl
        · exact absurd hb hok
      rw [hf] at h
      simp at h

/-- C5 witness: a server that always answers `authorization_pending` exhausts
the 120 default attempts and times out, within the bound. -/
theorem pollForToken_terminates_bounded_witness :
    (pollForToken sampleAuth (fun _ => pendingResponse) 0).1 =
      Except.error PollErr.loginTimeout ∧
    requestCount (pollForToken sampleAuth (fun _ => pendingResponse) 0).2 ≤ 120 :=
  ⟨(pollForToken_terminates_bounded sampleAuth (fun _ => pendingResponse) 0).2.2.1
      (fun j hj => ⟨by decide, by decide⟩),
   (pollForToken_terminates_bounded sampleAuth (fun _ => pendingResponse) 0).2.1 rfl⟩

/-- C3 (amended): both token-producing DeviceFlowClient operations compute
the token's `expires_at` as `now + expires_in`, defaulting `expires_in` to
3600 seconds when the server omits it or sends the falsy value 0, and never
use a server-supplied absolute timestamp (the result is invariant in the
response's absolute `expires_at` field).  `refreshAccessToken` on any ok
response, and the poll loop on any immediate success, both return exactly
this token. -/
theorem tokenExpiry_relative (data : TokenJson) (now : ℚ) :
    (∀ e : ℚ, data.expires_in = some e → e ≠ 0 →
      (tokenFromResponse data now).expires_at = some (now + e)) ∧
    ((data.expires_in = none ∨ data.expires_in = some 0) →
      (tokenFromResponse data now).expires_at = some (now + 3600)) ∧
    (∀ v : Option ℚ,
      tokenFromResponse { data with expires_at := v } now =
        tokenFromResponse data now) ∧
    (∀ resp : HttpResponse, resp.ok = true →
      refreshAccessToken resp now = Except.ok (tokenFromResponse resp.data now)) ∧
    (∀ (responses : Nat → HttpResponse) (interval : ℚ) (fuel i : Nat),
      isSuccess (responses i) = true →
      (pollLoop responses interval now (fuel + 1) i).1 =
        Except.ok (tokenFromResponse (responses i).data now)) := by
  refine ⟨?_, ?_, ?_, ?_, ?_⟩
  · intro e he hne
    simp [tokenFromResponse, jsNumOr, he, hne]
  · intro h
    rcases h with h | h <;> simp [tokenFromResponse, jsNumOr, h]
  · intro v
    rfl
  · intro resp hok
    simp [refreshAccessToken, hok]
  · intro responses interval fuel i hs
    simp [pollLoop, hs]

/-- C3 counterexample: the claim as stated is false.  A successful refresh
response that carries the relative lifetime `expires_in = 0` yields
`expires_at = now + 3600`, not `now + 0`: the code defaults on every falsy
`expires_in`, not only when the server omits it. -/
theorem tokenExpiry_relative_counterexample :
    refreshAccessToken ⟨true, 200, ⟨some "t", some "r", some 0, none, none, none, none, none⟩⟩ 0 =
      Except.ok (tokenFromResponse ⟨some "t", some "r", some 0, none, none, none, none, none⟩ 0) ∧
    (tokenFromResponse ⟨some "t", some "r", some 0, none, none, none, none, none⟩ 0).expires_at =
      some ((0 : ℚ) + 3600) ∧
    ((0 : ℚ) + 3600 ≠ 0 + 0) := by
  refine ⟨rfl, ?_, by norm_num⟩
  norm_num [tokenFromResponse, jsNumOr]

/-- C3 witness: the amended theorem applied at a concrete response with a
truthy relative lifetime of 60 seconds at `now = 5`. -/
theorem tokenExpiry_relative_witness :
    (tokenFromResponse ⟨some "t", some "r", some 60, none, none, none, none, none⟩ 5).expires_at =
      some ((5 : ℚ) + 60) :=
  (tokenExpiry_relative ⟨some "t", some "r", some 60, none, none, none, none, none⟩ 5).1
    60 rfl (by norm_num)

/-- Pi's credential record for an oauth provider (the shape
`refreshKimiCoderToken` receives and returns): `expires` is in
milliseconds. -/
structure OAuthCredentials where
  refresh : Option String
  access : Option String
  expires : Option ℚ

/-- Observable outcome of one `refreshKimiCoderToken` call: the returned or
thrown value, whether the network refresh endpoint was called, and the token
written to the companion store (`saveKimiCliToken`), if any. -/
structure RefreshOutcome where
  result : Except String OAuthCredentials
  networkCalled : Bool
  saved : Option KimiToken

/-- The network path of `refreshKimiCoderToken` (lines 311-320): call
`refreshAccessToken`, persist the new token to the companion store, and
return it converted to a millisecond credential; an error propagates and
nothing is saved. -/
def refreshViaNetwork (netResp : HttpResponse) (now : ℚ) : RefreshOutcome :=
  match refreshAccessToken netResp now with
  | Except.ok t =>
      { result := Except.ok
          { refresh := t.refresh_token
            access := t.access_token
            expires := jsMul1000 t.expires_at }
        networkCalled := true
        saved := some t }
  | Except.error e =>
      { result := Except.error e, networkCalled := true, saved := none }

/-- Source `refreshKimiCoderToken` (lines 294-321).  `diskToken` is what
`loadKimiCliToken` returns at call time; `netResp` the response the refresh
endpoint would give.  When the disk holds a token whose access token differs
from the cached credential's and which satisfies
`expires_at > Date.now()/1000 + 300`, it is returned directly (seconds
converted to milliseconds) without touching the network. -/
def refreshKimiCoderToken (credentials : OAuthCredentials)
    (diskToken : Option KimiToken) (netResp : HttpResponse) (now : ℚ) :
    RefreshOutcome :=
  match diskToken with
  | some d =>
      if (d.access_token != credentials.access) &&
          jsGtOpt d.expires_at (now + 300) then
        { result := Except.ok
            { refresh := d.refresh_token
              access := d.access_token
              expires := jsMul1000 d.expires_at }
          networkCalled := false
          saved := none }
      else refreshViaNetwork netResp now
  | none => refreshViaNetwork netResp now

/-- The network path always counts as a network call. -/
theorem refreshViaNetwork_networkCalled (netResp : HttpResponse) (now : ℚ) :
    (refreshViaNetwork netResp now).networkCalled = true := by
  unfold refreshViaNetwork
  cases refreshAccessToken netResp now <;> rfl

/-- C1 (amended): the refresh operation prefers a disk token whose access
token differs from the cached one and which is valid for strictly more than
300 seconds, returning it (ms conversion) without calling the network; it
calls `refreshAccessToken` exactly when no such disk token exists; and after
any successful network refresh it persists the new token to the companion
store and returns its conversion. -/
theorem refreshKimiCoder_prefers_fresher_disk (credentials : OAuthCredentials)
    (diskToken : Option KimiToken) (netResp : HttpResponse) (now : ℚ) :
    (∀ d : KimiToken, diskToken = some d →
      d.access_token ≠ credentials.access →
      jsGtOpt d.expires_at (now + 300) = true →
      refreshKimiCoderToken credentials diskToken netResp now =
        { result := Except.ok
            { refresh := d.refresh_token
              access := d.access_token
              expires := jsMul1000 d.expires_at }
          networkCalled := false
          saved := none }) ∧
    ((∀ d : KimiToken, diskToken = some d →
        d.access_token = credentials.access ∨
        jsGtOpt d.expires_at (now + 300) = false) →
      (refreshKimiCoderToken credentials diskToken netResp now).networkCalled = true) ∧
    ((refreshKimiCoderToken credentials diskToken netResp now).networkCalled = true →
      ∀ t : KimiToken, refreshAccessToken netResp now = Except.ok t →
        (refreshKimiCoderToken credentials diskToken netResp now).saved = some t ∧
        (refreshKimiCoderToken credentials diskToken netResp now).result =
          Except.ok
            { refresh := t.refresh_token
              access := t.access_token
              expires := jsMul1000 t.expires_at }) := by
  refine ⟨?_, ?_, ?_⟩
  · intro d hd hne hgt
    subst hd
    have hb : (d.access_token != credentials.access) = true := bne_iff_ne.mpr hne
    simp [refreshKimiCoderToken, hb, hgt]
  · intro hno
    cases diskToken with
    | none =>
        simp only [refreshKimiCoderToken]
        exact refreshViaNetwork_networkCalled netResp now
    | some d =>
        rcases hno d rfl with h | h
        · have hb : (d.access_token != credentials.access) = false := by
            simp [bne_eq_false_iff_eq, h]
          simp only [refreshKimiCoderToken, hb, Bool.false_and,
            Bool.false_eq_true, if_false]
          exact refreshViaNetwork_networkCalled netResp now
        · simp only [refreshKimiCoderToken, h, Bool.and_false,
            Bool.false_eq_true, if_false]
          exact refreshViaNetwork_networkCalled netResp now
  · intro hnet t hok
    cases diskToken with
    | none =>
        simp [refreshKimiCoderToken, refreshViaNetwork, hok, jsMul1000]
    | some d =>
        by_cases hcond : ((d.access_token != credentials.access) &&
            jsGtOpt d.expires_at (now + 300)) = true
        · simp only [refreshKimiCoderToken, hcond, if_true] at hnet
          cases hnet
        · simp only [refreshKimiCoderToken, hcond, Bool.false_eq_true, if_false]
          simp [refreshViaNetwork, hok, jsMul1000]

/-- C1 counterexample: the claim as stated ("valid for at least 300 more
seconds") is false at the boundary.  At `now = 0` the disk token has
`expires_at = 300` — exactly 300 seconds of validity remaining, and a
different access token — yet the code's strict comparison
`expires_at > now + 300` fails, so the refresh operation calls the network
endpoint instead of returning the disk token. -/
theorem refreshKimiCoder_prefers_fresher_disk_counterexample :
    (refreshKimiCoderToken ⟨some "r0", some "a0", some 1⟩
        (some ⟨some "a1", some "r1", some 300, none, none⟩)
        ⟨true, 200, ⟨some "t", some "r", none, none, none, none, none, none⟩⟩
        0).networkCalled = true ∧
    (some "a1" : Option String) ≠ some "a0" ∧
    ((0 : ℚ) + 300 ≤ 300) := by
  have hgt : jsGtOpt (some (300 : ℚ)) (0 + 300) = false := by
    simp only [jsGtOpt, decide_eq_false_iff_not]
    norm_num
  refine ⟨?_, by simp, by norm_num⟩
  simp only [refreshKimiCoderToken, hgt, Bool.and_false, Bool.false_eq_true,
    if_false]
  exact refreshViaNetwork_networkCalled _ 0

/-- C1 witness: the amended theorem at a concrete input — a disk token with
a different access token and 1000 seconds of validity at `now = 0` is
returned without a network call. -/
theorem refreshKimiCoder_prefers_fresher_disk_witness :
    refreshKimiCoderToken ⟨some "r0", some "a0", some 1⟩
        (some ⟨some "a1", some "r1", some 1000, none, none⟩)
        ⟨true, 200, ⟨some "t", some "r", none, none, none, none, none, none⟩⟩
        0 =
      { result := Except.ok
          { refresh := some "r1"
            access := some "a1"
            expires := jsMul1000 (some 1000) }
        networkCalled := false
        saved := none } :=
  (refreshKimiCoder_prefers_fresher_disk ⟨some "r0", some "a0", some 1⟩
      (some ⟨some "a1", some "r1", some 1000, none, none⟩)
      ⟨true, 200, ⟨some "t", some "r", none, none, none, none, none, none⟩⟩
      0).1
    ⟨some "a1", some "r1", some 1000, none, none⟩ rfl
    (by simp)
    (by
      simp only [jsGtOpt, decide_eq_true_eq]
      norm_num)

/-- State of the background-refresh machinery: whether the 10-minute interval
timer is installed (`refreshInterval !== null`, lines 439-443) and how many
refresh network calls are currently outstanding (each `await
refreshAccessToken` that has started and not yet completed). -/
structure SchedState where
  timerInstalled : Bool
  inFlight : Nat
deriving DecidableEq

/-- The refresh condition shared by the session-start handler (lines 415-418)
and the interval tick (lines 444-447): a companion token loads, its
`refresh_token` is truthy, and `expires_at - Date.now()/1000 < 300`. -/
def wantsRefresh (disk : KtFileState) (now : ℚ) : Bool :=
  match loadKimiCliToken disk with
  | none => false
  | some t => truthyStr t.refresh_token && jsRemainingLt t.expires_at now 300

/-- Events of the scheduler model.  `tickBegin`/`sessionStartBegin` are the
moments the respective handlers run up to their `await refreshAccessToken`
suspension point (reading the companion store as `disk` at time `now`);
`refreshEnd` is the completion of one outstanding refresh; `agentStart` and
`sessionShutdown` are the host lifecycle hooks. -/
inductive SchedEvent where
  | agentStart
  | sessionStartBegin (disk : KtFileState) (now : ℚ)
  | tickBegin (disk : KtFileState) (now : ℚ)
  | refreshEnd
  | sessionShutdown
deriving DecidableEq

/-- One step of the scheduler, translated from the three handlers
(lines 409-464): `agent_start` installs the interval timer only if none
exists (`if (refreshInterval) return`); a tick can only begin while the timer
is installed and starts a refresh when `wantsRefresh` holds — it does not
consult whether another refresh is still outstanding, and neither does the
session-start check; `session_shutdown` clears the timer. -/
def schedStep (s : SchedState) : SchedEvent → SchedState
  | SchedEvent.agentStart =>
      if s.timerInstalled then s else { s with timerInstalled := true }
  | SchedEvent.sessionStartBegin disk now =>
      if wantsRefresh disk now then { s with inFlight := s.inFlight + 1 } else s
  | SchedEvent.tickBegin disk now =>
      if s.timerInstalled && wantsRefresh disk now then
        { s with inFlight := s.inFlight + 1 }
      else s
  | SchedEvent.refreshEnd => { s with inFlight := s.inFlight - 1 }
  | SchedEvent.sessionShutdown => { s with timerInstalled := false }

/-- Run the scheduler over a sequence of events. -/
def schedRun (s : SchedState) (evs : List SchedEvent) : SchedState :=
  evs.foldl schedStep s

/-- The state before the extension has seen any event. -/
def initialSchedState : SchedState := ⟨false, 0⟩

/-- A companion-store state holding a token that is stale (100 seconds
remaining at `now = 0`) with a truthy refresh token. -/
def staleDisk : KtFileState :=
  KtFileState.parsed ⟨some "a", some "r", some 100, none, none⟩

/-- C9 (amended): the `agent_start` guard only makes timer installation
idempotent — a second `agent_start` while the timer exists changes nothing —
but no handler checks for an outstanding refresh: a tick beginning while the
timer is installed, and the session-start check at any time, each start a
refresh whenever the disk token is stale, incrementing the number of
in-flight refreshes regardless of how many are already outstanding. -/
theorem scheduler_timer_idempotent_refresh_unguarded :
    (∀ s : SchedState, s.timerInstalled = true →
      schedStep s SchedEvent.agentStart = s) ∧
    (∀ (s : SchedState) (disk : KtFileState) (now : ℚ),
      s.timerInstalled = true → wantsRefresh disk now = true →
      (schedStep s (SchedEvent.tickBegin disk now)).inFlight = s.inFlight + 1) ∧
    (∀ (s : SchedState) (disk : KtFileState) (now : ℚ),
      wantsRefresh disk now = true →
      (schedStep s (SchedEvent.sessionStartBegin disk now)).inFlight =
        s.inFlight + 1) := by
  refine ⟨?_, ?_, ?_⟩
  · intro s hs
    simp [schedStep, hs]
  · intro s disk now hs hw
    simp [schedStep, hs, hw]
  · intro s disk now hw
    simp [schedStep, hw]

/-- C9 counterexample: the claim as stated ("two refresh calls never
overlap") is false.  After `agent_start` installs the timer, the
session-start check begins a refresh of the stale token; before it completes,
the 10-minute tick fires and — with no single-flight guard — begins a second
refresh: two refresh calls are then in flight simultaneously. -/
theorem scheduler_overlap_counterexample :
    (schedRun initialSchedState
        [SchedEvent.agentStart,
          SchedEvent.sessionStartBegin staleDisk 0,
          SchedEvent.tickBegin staleDisk 0]).inFlight = 2 := by
  have hw : wantsRefresh staleDisk 0 = true := by
    simp [wantsRefresh, staleDisk, loadKimiCliToken, truthyStr, jsRemainingLt]
    norm_num
  simp [schedRun, schedStep, initialSchedState, hw]

/-- C9 witness: the amended theorem at a concrete state — a tick beginning
while one refresh is already outstanding raises the in-flight count to
two. -/
theorem scheduler_timer_idempotent_refresh_unguarded_witness :
    (schedStep ⟨true, 1⟩ (SchedEvent.tickBegin staleDisk 0)).inFlight = 2 :=
  (scheduler_timer_idempotent_refresh_unguarded).2.1 ⟨true, 1⟩ staleDisk 0 rfl
    (by
      simp [wantsRefresh, staleDisk, loadKimiCliToken, truthyStr, jsRemainingLt]
      norm_num)

end KimiCoder
